import Mathlib

/-!
Shallow embedding of the yirgacheffe expression engine
(src/yirgacheffe/operators.py) together with a spec-modelled fragment of the
group compositor construction (exercised by src/tests/test_group.py).

Numeric chunk data is modelled with `Rat`; a 2-D numpy array is a
`List (List Rat)` of rows.  Python exceptions are modelled by `Option`
(`none` = an exception was raised) or by `Except` with an explicit error
type.  The `NotImplemented` sentinel that Python operator dispatch can
return as an ordinary value is a distinguished `CellValue`.
-/

set_option autoImplicit false

namespace Yirgacheffe

/-- Pixel-space window `(xoff, yoff, xsize, ysize)` (src/yirgacheffe/window.py). -/
structure Window where
  xoff : Int
  yoff : Int
  xsize : Nat
  ysize : Nat
deriving DecidableEq, Repr

/-- The named operator strings dispatched by `LayerMathMixin`
(`__add__`, `__sub__`, `__mul__`, `__truediv__`, `__pow__`, `__eq__`,
`__ne__`, `__lt__`, `__le__`, `__gt__`, `__ge__`). -/
inductive OpName where
  | add | sub | mul | truediv | pow | eq | ne | lt | le | gt | ge
deriving DecidableEq, Repr

/-- Scalar power; Python `a ** b` restricted to the rational embedding:
an integral non-negative exponent is computed exactly, anything else is
modelled as 0 (no claim depends on the numeric value of `__pow__`). -/
def ratPow (a b : Rat) : Rat :=
  if b.den = 1 ∧ 0 ≤ b.num then a ^ b.num.toNat else 0

/-- Scalar semantics of one named operator applied to two numbers.
Comparisons yield 1 or 0 (numpy booleans sum as 1/0). -/
def applyOp (op : OpName) (a b : Rat) : Rat :=
  match op with
  | .add => a + b
  | .sub => a - b
  | .mul => a * b
  | .truediv => a / b
  | .pow => ratPow a b
  | .eq => if a = b then 1 else 0
  | .ne => if a = b then 0 else 1
  | .lt => if a < b then 1 else 0
  | .le => if a ≤ b then 1 else 0
  | .gt => if b < a then 1 else 0
  | .ge => if b ≤ a then 1 else 0

/-- The value of one `_eval` call: a Python scalar, a 2-D numpy array,
or the `NotImplemented` sentinel returned by declined operator dispatch. -/
inductive CellValue where
  | scalar (v : Rat)
  | arr (rows : List (List Rat))
  | notImpl
deriving DecidableEq, Repr

/-- Map a scalar function over every entry of a 2-D array. -/
def mapGrid (f : Rat → Rat) (m : List (List Rat)) : List (List Rat) :=
  m.map (fun row => row.map f)

/-- Combine two 2-D arrays entrywise (same-shape numpy broadcast). -/
def zipGrid (f : Rat → Rat → Rat) (m n : List (List Rat)) : List (List Rat) :=
  List.zipWith (fun r s => List.zipWith f r s) m n

/-- `getattr(lhs, op)(rhs)`: Python/numpy dispatch of a named binary operator
on the evaluated lhs.  A Python scalar's dunder declines an array argument
with `NotImplemented`; numpy arrays accept scalars (broadcast) and arrays. -/
def dispatch (op : OpName) (l r : CellValue) : CellValue :=
  match l, r with
  | .scalar a, .scalar b => .scalar (applyOp op a b)
  | .scalar _, .arr _ => .notImpl
  | .scalar _, .notImpl => .notImpl
  | .arr m, .scalar b => .arr (mapGrid (fun a => applyOp op a b) m)
  | .arr m, .arr n => .arr (zipGrid (applyOp op) m n)
  | .arr _, .notImpl => .notImpl
  | .notImpl, _ => .notImpl

/-- The named-operator branch of `LayerOperation._eval`
(operators.py lines 126-144): dispatch on the evaluated lhs; on a
`NotImplemented` result retry `getattr(rhs, op)(lhs)` when the operator is
`__add__` or `__mul__`, otherwise return the result (the sentinel) as is. -/
def evalNamed (op : OpName) (l r : CellValue) : CellValue :=
  let result := dispatch op l r
  match result with
  | .notImpl =>
      if op = .add ∨ op = .mul then dispatch op r l else result
  | _ => result

/-- A node operator: either a named dunder string or an arbitrary callable
(`numpy_apply`), which receives the evaluated lhs and the optional
evaluated rhs. -/
inductive Oper where
  | named (op : OpName)
  | call (f : CellValue → Option CellValue → CellValue)

/-- Expression trees.  `layer` is an external Layer (its current window plus
the backing chunk rows it serves), `const` is `LayerConstant`,
`node` is `LayerOperation(lhs, operator?, rhs?)` after rhs normalisation,
and `shader` is `ShaderStyleOperation` built by `shader_apply` (its operator
is a per-element function of the lhs value and optional rhs value). -/
inductive Expr where
  | layer (rows : List (List Rat)) (w : Window)
  | const (v : Rat)
  | node (lhs : Expr) (oper : Option Oper) (rhs : Option Expr)
  | shader (lhs : Expr) (f : Rat → Option Rat → Rat) (rhs : Option Expr)

/-- `LayerOperation.window` (operators.py lines 108-116): try
`self.lhs.window`, and on `AttributeError` fall back to `self.rhs.window`,
letting the exception propagate (`none`) when neither side has one. -/
def Expr.window : Expr → Option Window
  | .layer _ w => some w
  | .const _ => none
  | .node lhs _ none => lhs.window
  | .node lhs _ (some r) =>
      match lhs.window with
      | some w => some w
      | none => r.window
  | .shader lhs _ none => lhs.window
  | .shader lhs _ (some r) =>
      match lhs.window with
      | some w => some w
      | none => r.window

/-- `read_array(0, index, window.xsize, step)` of a plain Layer: rows
`index .. index+step` of the layer's current window content. -/
def readChunk (rows : List (List Rat)) (w : Window) (index step : Nat) :
    List (List Rat) :=
  ((rows.drop index).take step).map (fun r => r.take w.xsize)

/-- Python indexing `c[y][x]` with the `TypeError` fallback used by the
shader loop: a scalar broadcasts to every position. -/
def cellAt (c : CellValue) (y x : Nat) : Rat :=
  match c with
  | .scalar v => v
  | .arr m => (m.getD y []).getD x 0
  | .notImpl => 0

/-- One row of the shader output: `result[y][x] = f x` is assigned for
`x0 + j < xsize`, positions beyond the loop keep the `np.empty_like`
template entry. -/
def fillRow : List Rat → Nat → Nat → (Nat → Rat) → List Rat
  | [], _, _, _ => []
  | v :: rest, x0, xsize, g =>
      (if x0 < xsize then g x0 else v) :: fillRow rest (x0 + 1) xsize g

/-- The shader double loop over `yoffset in range(step)`,
`xoffset in range(window.xsize)` writing into an `np.empty_like` template. -/
def fillGridAux : List (List Rat) → Nat → Nat → Nat → (Nat → Nat → Rat) →
    List (List Rat)
  | [], _, _, _, _ => []
  | row :: rest, y0, step, xsize, g =>
      (if y0 < step then fillRow row 0 xsize (g y0) else row) ::
        fillGridAux rest (y0 + 1) step xsize g

def fillGrid (template : List (List Rat)) (step xsize : Nat)
    (g : Nat → Nat → Rat) : List (List Rat) :=
  fillGridAux template 0 step xsize g

/-- The body of `ShaderStyleOperation._eval` after both operands are
evaluated: scalar short-circuit, template allocation shaped like the
array-valued operand, then the double loop over `range(step)` and
`range(window.xsize)`.  `w?` is `self.window` (queried for the column
bound; `none` = `AttributeError`). -/
def shaderCombine (f : Rat → Option Rat → Rat) (w? : Option Window)
    (step : Nat) (l : CellValue) (r : Option CellValue) : Option CellValue :=
  match l, r with
  | .scalar a, none => some (.scalar (f a none))
  | .scalar a, some (.scalar b) => some (.scalar (f a (some b)))
  | .scalar a, some (.arr n) =>
      match w? with
      | none => none
      | some w => some (.arr (fillGrid n step w.xsize (fun y x =>
          f a (some (cellAt (.arr n) y x)))))
  | .scalar _, some .notImpl => none
  | .arr m, r0 =>
      match w? with
      | none => none
      | some w => some (.arr (fillGrid m step w.xsize (fun y x =>
          match r0 with
          | none => f (cellAt (.arr m) y x) none
          | some rv => f (cellAt (.arr m) y x) (some (cellAt rv y x)))))
  | .notImpl, _ => none

/-- `_eval(index, step)` over the tree.  `none` models a raised exception.
`LayerConstant._eval` returns the constant; a Layer leaf reads a chunk;
`LayerOperation._eval` (operators.py lines 118-155) dispatches the named
operator with the commutative `NotImplemented` retry, or calls a callable
operator positionally; a named operator with no rhs raises (`operator()`
on a binary dunder is a `TypeError`); `ShaderStyleOperation._eval`
(lines 232-267) is the per-element path. -/
def Expr.eval : Expr → Nat → Nat → Option CellValue
  | .layer rows w, index, step => some (.arr (readChunk rows w index step))
  | .const v, _, _ => some (.scalar v)
  | .node lhs none _, index, step => lhs.eval index step
  | .node lhs (some (.named _)) none, index, step =>
      (lhs.eval index step).bind (fun _ => none)
  | .node lhs (some (.named op)) (some r), index, step =>
      (lhs.eval index step).bind (fun l =>
        (r.eval index step).bind (fun rv => some (evalNamed op l rv)))
  | .node lhs (some (.call f)) none, index, step =>
      (lhs.eval index step).bind (fun l => some (f l none))
  | .node lhs (some (.call f)) (some r), index, step =>
      (lhs.eval index step).bind (fun l =>
        (r.eval index step).bind (fun rv => some (f l (some rv))))
  | .shader lhs f none, index, step =>
      (lhs.eval index step).bind (fun l =>
        shaderCombine f (Expr.window (.shader lhs f none)) step l none)
  | .shader lhs f (some r), index, step =>
      (lhs.eval index step).bind (fun l =>
        (r.eval index step).bind (fun rv =>
          shaderCombine f (Expr.window (.shader lhs f (some r))) step l
            (some rv)))

/-- The fixed band height (operators.py line 5). -/
def YSTEP : Nat := 512

/-- The row bands visited by `range(0, ysize, ystep)` together with the
clipped step of each band (`step = ysize - yoffset` on the last band when
`yoffset + ystep > ysize`). -/
def bandList (ysize ystep : Nat) : List (Nat × Nat) :=
  (List.range ((ysize + ystep - 1) / ystep)).map (fun i =>
    let yoff := i * ystep
    (yoff, if ysize < yoff + ystep then ysize - yoff else ystep))

/-- Sum of every entry of a 2-D array. -/
def gridSum (m : List (List Rat)) : Rat :=
  m.foldl (fun acc row => acc + row.foldl (fun a b => a + b) 0) 0

/-- `np.sum(chunk)`: a scalar sums to itself; summing the
`NotImplemented` sentinel raises. -/
def npSum : CellValue → Option Rat
  | .scalar v => some v
  | .arr m => some (gridSum m)
  | .notImpl => none

/-- All entries of a 2-D array in row order. -/
def gridFlat (m : List (List Rat)) : List Rat :=
  m.foldl (fun acc row => acc ++ row) []

/-- `np.min(chunk)`: minimum entry; raises on an empty array or on the
`NotImplemented` sentinel. -/
def npMin : CellValue → Option Rat
  | .scalar v => some v
  | .arr m =>
      match gridFlat m with
      | [] => none
      | x :: xs => some (xs.foldl min x)
  | .notImpl => none

/-- `np.max(chunk)`: maximum entry; raises on an empty array or on the
`NotImplemented` sentinel. -/
def npMax : CellValue → Option Rat
  | .scalar v => some v
  | .arr m =>
      match gridFlat m with
      | [] => none
      | x :: xs => some (xs.foldl max x)
  | .notImpl => none

/-- The accumulation loop of `LayerOperation.sum` (operators.py lines
157-166): `total += np.sum(chunk)` per band. -/
def sumLoop (e : Expr) : List (Nat × Nat) → Rat → Option Rat
  | [], total => some total
  | b :: rest, total =>
      match e.eval b.1 b.2 with
      | none => none
      | some chunk =>
          match npSum chunk with
          | none => none
          | some s => sumLoop e rest (total + s)

/-- The accumulation loop of `LayerOperation.min` (operators.py lines
168-177): the code performs `total += np.min(chunk)` per band, starting
from `total = 0.0`. -/
def minLoop (e : Expr) : List (Nat × Nat) → Rat → Option Rat
  | [], total => some total
  | b :: rest, total =>
      match e.eval b.1 b.2 with
      | none => none
      | some chunk =>
          match npMin chunk with
          | none => none
          | some s => minLoop e rest (total + s)

/-- The accumulation loop of `LayerOperation.max` (operators.py lines
179-188): `total += np.max(chunk)` per band, starting from `total = 0.0`. -/
def maxLoop (e : Expr) : List (Nat × Nat) → Rat → Option Rat
  | [], total => some total
  | b :: rest, total =>
      match e.eval b.1 b.2 with
      | none => none
      | some chunk =>
          match npMax chunk with
          | none => none
          | some s => maxLoop e rest (total + s)

/-- `LayerOperation.sum` with the band height `ystep` generalising the
literal `YSTEP`; the source function is `sumWith e YSTEP`. -/
def sumWith (e : Expr) (ystep : Nat) : Option Rat :=
  match e.window with
  | none => none
  | some w => sumLoop e (bandList w.ysize ystep) 0

def minWith (e : Expr) (ystep : Nat) : Option Rat :=
  match e.window with
  | none => none
  | some w => minLoop e (bandList w.ysize ystep) 0

def maxWith (e : Expr) (ystep : Nat) : Option Rat :=
  match e.window with
  | none => none
  | some w => maxLoop e (bandList w.ysize ystep) 0

/-- `LayerOperation.sum` as in the source (band height `YSTEP`). -/
def LayerOperation.sum (e : Expr) : Option Rat := sumWith e YSTEP

/-- `LayerOperation.min` as in the source (band height `YSTEP`). -/
def LayerOperation.min (e : Expr) : Option Rat := minWith e YSTEP

/-- `LayerOperation.max` as in the source (band height `YSTEP`). -/
def LayerOperation.max (e : Expr) : Option Rat := maxWith e YSTEP

/-- One `band.WriteArray(chunk, xoff, yoff)` call recorded against the
destination. -/
structure WriteRec where
  chunk : List (List Rat)
  xoff : Int
  yoff : Int
deriving DecidableEq, Repr

/-- The destination sink of `save`: whether
`destination_layer._dataset.GetRasterBand(1)` succeeds, and the sink's own
window. -/
structure RasterDest where
  hasRasterBand : Bool
  window : Window
deriving DecidableEq, Repr

inductive SaveError where
  | layerRequired
  | notRasterBacked
  | missingWindow
  | sizeMismatch
  | evalFailed
deriving DecidableEq, Repr

/-- The scalar-chunk expansion in `save` (operators.py lines 217-218):
`np.full((step, xsize), chunk)` when the evaluated chunk is a bare
scalar; an array chunk is written as is; writing the `NotImplemented`
sentinel raises. -/
def expandChunk (c : CellValue) (step xsize : Nat) : Option (List (List Rat)) :=
  match c with
  | .scalar v => some (List.replicate step (List.replicate xsize v))
  | .arr m => some m
  | .notImpl => none

/-- The band loop of `save` (operators.py lines 212-225): evaluate the
band, expand a scalar chunk, write it at
`(destination_window.xoff, yoffset + destination_window.yoff)`, and when
`and_sum` accumulate `np.sum` of the written chunk.  The write log
accumulated so far survives a mid-loop failure (no rollback). -/
def saveLoop (e : Expr) (dw : Window) (and_sum : Bool) :
    List (Nat × Nat) → List WriteRec → Rat →
    List WriteRec × Except SaveError (Option Rat)
  | [], ws, total => (ws, .ok (if and_sum then some total else none))
  | b :: rest, ws, total =>
      match e.eval b.1 b.2 with
      | none => (ws, .error .evalFailed)
      | some chunk =>
          match expandChunk chunk b.2 dw.xsize with
          | none => (ws, .error .evalFailed)
          | some grid =>
              saveLoop e dw and_sum rest
                (ws ++ [⟨grid, dw.xoff, (b.1 : Int) + dw.yoff⟩])
                (if and_sum then total + gridSum grid else total)

/-- `LayerOperation.save` (operators.py lines 190-227): destination
presence check, raster-band check, window lookup (an `AttributeError`
from `self.window` propagates), size equality check, then the band loop.
Returns the write log together with the outcome. -/
def LayerOperation.save (e : Expr) (dest : Option RasterDest)
    (and_sum : Bool) : List WriteRec × Except SaveError (Option Rat) :=
  match dest with
  | none => ([], .error .layerRequired)
  | some d =>
      if d.hasRasterBand = false then ([], .error .notRasterBacked)
      else
        match e.window with
        | none => ([], .error .missingWindow)
        | some cw =>
            if cw.xsize ≠ d.window.xsize ∨ cw.ysize ≠ d.window.ysize then
              ([], .error .sizeMismatch)
            else
              saveLoop e d.window and_sum (bandList cw.ysize YSTEP) [] 0

/-- The raw rhs argument handed to `LayerOperation.__init__`: a bare
Python number, a numpy array of a given shape (shape `[]` is
0-dimensional, `flat` then holds the single item), or a Layer-like
object. -/
inductive RhsValue where
  | pynum (v : Rat)
  | nparray (shape : List Nat) (flat : List Rat)
  | layerLike (e : Expr)

inductive InitError where
  | numpyNotAllowed
deriving DecidableEq, Repr

/-- The rhs normalisation of `LayerOperation.__init__` (operators.py lines
85-94): a bare int/float becomes `LayerConstant`; a 0-dimensional numpy
array becomes `LayerConstant(rhs.item())`; any other numpy array raises
`ValueError`; anything else is stored unchanged; `None` leaves the node
without an rhs. -/
def normalizeRhs : Option RhsValue → Except InitError (Option Expr)
  | none => .ok none
  | some (.pynum v) => .ok (some (.const v))
  | some (.nparray shape flat) =>
      if shape = [] then .ok (some (.const (flat.headD 0)))
      else .error .numpyNotAllowed
  | some (.layerLike r) => .ok (some r)

/-- `LayerOperation.__init__(lhs, operator, rhs)` (operators.py lines
81-94): store the lhs unchanged, record the operator, normalise the rhs. -/
def LayerOperation.mk (lhs : Expr) (oper : Option Oper)
    (rhs : Option RhsValue) : Except InitError Expr :=
  (normalizeRhs rhs).map (fun r => Expr.node lhs oper r)

/-- One operator method of `LayerMathMixin` (operators.py lines 20-51):
`self.__op__(other) = LayerOperation(self, "__op__", other)`. -/
def applyBinary (opn : OpName) (lhs : Expr) (other : RhsValue) :
    Except InitError Expr :=
  LayerOperation.mk lhs (some (.named opn)) (some other)

def LayerMathMixin.eq (lhs : Expr) (other : RhsValue) : Except InitError Expr :=
  applyBinary .eq lhs other

def LayerMathMixin.ne (lhs : Expr) (other : RhsValue) : Except InitError Expr :=
  applyBinary .ne lhs other

def LayerMathMixin.lt (lhs : Expr) (other : RhsValue) : Except InitError Expr :=
  applyBinary .lt lhs other

def LayerMathMixin.le (lhs : Expr) (other : RhsValue) : Except InitError Expr :=
  applyBinary .le lhs other

def LayerMathMixin.gt (lhs : Expr) (other : RhsValue) : Except InitError Expr :=
  applyBinary .gt lhs other

def LayerMathMixin.ge (lhs : Expr) (other : RhsValue) : Except InitError Expr :=
  applyBinary .ge lhs other

/-- Pixel scale `(xstep, ystep)` (src/yirgacheffe/window.py). -/
structure PixelScale where
  xstep : Rat
  ystep : Rat
deriving DecidableEq, Repr

/-- A child layer as far as group construction is concerned: its pixel
scale. -/
structure ChildLayer where
  scale : PixelScale
deriving DecidableEq, Repr

structure GroupLayer where
  children : List ChildLayer
deriving DecidableEq, Repr

inductive GroupError where
  | emptyInput
  | incompatibleLayers
deriving DecidableEq, Repr

/-- Modelled from the spec: pixel-scale comparison "after normalizing
sign/precision" (spec 4.3); the GroupLayer implementation is not under
src/.  Sign is normalised by taking absolute values; on exact rationals
precision normalisation is the identity. -/
def normalizeScale (s : PixelScale) : PixelScale :=
  ⟨|s.xstep|, |s.ystep|⟩

/-- Modelled from the spec: `GroupLayer` construction (spec 4.3; the
implementation in src/yirgacheffe/layers.py is not under src/, only its
tests are).  Construction fails on an empty child set (`EmptyInput`) and
when children do not share the same normalised pixel scale
(`IncompatibleLayers`); no compositor object is produced in either case. -/
def GroupLayer.create (children : List ChildLayer) :
    Except GroupError GroupLayer :=
  match children with
  | [] => .error .emptyInput
  | c :: rest =>
      if rest.all (fun d => normalizeScale d.scale = normalizeScale c.scale)
      then .ok ⟨c :: rest⟩
      else .error .incompatibleLayers

/-- A 513-row, 1-column layer of constant value 1: its window is one band
taller than `YSTEP`, so the reductions visit two bands. -/
def tallOnes : Expr := .layer (List.replicate 513 [1]) ⟨0, 0, 1, 513⟩

/-- An expression whose chunks evaluate to the bare scalar 5 over a 1-row,
2-column window (a `numpy_apply` callable returning a scalar). -/
def scalarExpr : Expr :=
  .node (.layer [[3, 3]] ⟨0, 0, 2, 1⟩) (some (.call (fun _ _ => .scalar 5)))
    none

/-- A raster-backed destination whose window matches `scalarExpr`. -/
def destC2 : RasterDest := ⟨true, ⟨0, 0, 2, 1⟩⟩

end Yirgacheffe

namespace Yirgacheffe

section

attribute [local semireducible] Rat.add Rat.mul Rat.sub Rat.inv

theorem gridFlat_replicate_aux (a : Rat) :
    ∀ (k : Nat) (acc : List Rat),
      (List.replicate k [a]).foldl (fun acc row => acc ++ row) acc =
        acc ++ List.replicate k a := by
  intro k
  induction k with
  | zero => simp
  | succ n ih =>
      intro acc
      simp only [List.replicate_succ, List.foldl_cons, ih]
      simp

theorem gridFlat_replicate (k : Nat) (a : Rat) :
    gridFlat (List.replicate k [a]) = List.replicate k a := by
  simpa [gridFlat] using gridFlat_replicate_aux a k []

theorem foldl_min_replicate (a : Rat) :
    ∀ k, List.foldl min a (List.replicate k a) = a := by
  intro k
  induction k with
  | zero => rfl
  | succ n ih => simpa [List.replicate_succ, min_self] using ih

theorem foldl_max_replicate (a : Rat) :
    ∀ k, List.foldl max a (List.replicate k a) = a := by
  intro k
  induction k with
  | zero => rfl
  | succ n ih => simpa [List.replicate_succ, max_self] using ih

theorem npMin_replicate (k : Nat) (a : Rat) :
    npMin (.arr (List.replicate (k + 1) [a])) = some a := by
  have h : gridFlat (List.replicate (k + 1) [a]) = a :: List.replicate k a := by
    rw [gridFlat_replicate]
    exact List.replicate_succ a k
  simp [npMin, h, foldl_min_replicate]

theorem npMax_replicate (k : Nat) (a : Rat) :
    npMax (.arr (List.replicate (k + 1) [a])) = some a := by
  have h : gridFlat (List.replicate (k + 1) [a]) = a :: List.replicate k a := by
    rw [gridFlat_replicate]
    exact List.replicate_succ a k
  simp [npMax, h, foldl_max_replicate]

theorem gridSum_replicate_aux (a : Rat) :
    ∀ (k : Nat) (acc : Rat),
      (List.replicate k [a]).foldl
          (fun acc row => acc + row.foldl (fun x y => x + y) 0) acc =
        acc + k * a := by
  intro k
  induction k with
  | zero => intro acc; simp
  | succ n ih =>
      intro acc
      simp only [List.replicate_succ, List.foldl_cons, List.foldl_nil, ih]
      push_cast
      ring

theorem gridSum_replicate (k : Nat) (a : Rat) :
    gridSum (List.replicate k [a]) = k * a := by
  simpa [gridSum] using gridSum_replicate_aux a k 0

theorem readChunk_replicate_single (n i s : Nat) (a : Rat) (w : Window)
    (h : w.xsize = 1) :
    readChunk (List.replicate n [a]) w i s =
      List.replicate (min s (n - i)) [a] := by
  simp [readChunk, List.drop_replicate, List.take_replicate, h]

theorem sumLoop_cons (e : Expr) (b : Nat × Nat) (rest : List (Nat × Nat))
    (total : Rat) (v : CellValue) (s : Rat)
    (he : e.eval b.1 b.2 = some v) (hs : npSum v = some s) :
    sumLoop e (b :: rest) total = sumLoop e rest (total + s) := by
  simp [sumLoop, he, hs]

theorem minLoop_cons (e : Expr) (b : Nat × Nat) (rest : List (Nat × Nat))
    (total : Rat) (v : CellValue) (s : Rat)
    (he : e.eval b.1 b.2 = some v) (hs : npMin v = some s) :
    minLoop e (b :: rest) total = minLoop e rest (total + s) := by
  simp [minLoop, he, hs]

theorem maxLoop_cons (e : Expr) (b : Nat × Nat) (rest : List (Nat × Nat))
    (total : Rat) (v : CellValue) (s : Rat)
    (he : e.eval b.1 b.2 = some v) (hs : npMax v = some s) :
    maxLoop e (b :: rest) total = maxLoop e rest (total + s) := by
  simp [maxLoop, he, hs]

/-- C1: the claim says the chunked `sum`/`min`/`max` all return the true
global reduction and are band-height independent.  `sum` is, but the code
accumulates `total += np.min(chunk)` (resp. `np.max`) per band from 0.0:
on a 513-row window of ones the code's `min` and `max` return 2, while the
global minimum and maximum over the whole window are 1, and running the
same loop with band height 513 returns 1 — the value depends on the band
height. -/
theorem C1_min_max_band_accumulation_bug :
    LayerOperation.sum tallOnes = some 513 ∧
    LayerOperation.min tallOnes = some 2 ∧
    LayerOperation.max tallOnes = some 2 ∧
    (tallOnes.eval 0 513).bind npMin = some 1 ∧
    (tallOnes.eval 0 513).bind npMax = some 1 ∧
    minWith tallOnes 513 = some 1 ∧
    maxWith tallOnes 513 = some 1 := by
  have hw : Expr.window tallOnes = some ⟨0, 0, 1, 513⟩ := rfl
  have hb : bandList 513 YSTEP = [(0, 512), (512, 1)] := by decide
  have hb2 : bandList 513 513 = [(0, 513)] := by decide
  have he1 : tallOnes.eval 0 512 = some (.arr (List.replicate 512 [1])) := by
    have h : tallOnes.eval 0 512 =
        some (.arr (readChunk (List.replicate 513 [1]) ⟨0, 0, 1, 513⟩ 0 512)) := rfl
    rw [h, readChunk_replicate_single _ _ _ _ _ rfl]
    norm_num
  have he2 : tallOnes.eval 512 1 = some (.arr (List.replicate 1 [1])) := by
    have h : tallOnes.eval 512 1 =
        some (.arr (readChunk (List.replicate 513 [1]) ⟨0, 0, 1, 513⟩ 512 1)) := rfl
    rw [h, readChunk_replicate_single _ _ _ _ _ rfl]
    norm_num
  have he3 : tallOnes.eval 0 513 = some (.arr (List.replicate 513 [1])) := by
    have h : tallOnes.eval 0 513 =
        some (.arr (readChunk (List.replicate 513 [1]) ⟨0, 0, 1, 513⟩ 0 513)) := rfl
    rw [h, readChunk_replicate_single _ _ _ _ _ rfl]
    norm_num
  have hmin512 : npMin (.arr (List.replicate 512 [1])) = some 1 := npMin_replicate 511 1
  have hmin1 : npMin (.arr (List.replicate 1 [1])) = some 1 := npMin_replicate 0 1
  have hmin513 : npMin (.arr (List.replicate 513 [1])) = some 1 := npMin_replicate 512 1
  have hmax512 : npMax (.arr (List.replicate 512 [1])) = some 1 := npMax_replicate 511 1
  have hmax1 : npMax (.arr (List.replicate 1 [1])) = some 1 := npMax_replicate 0 1
  have hmax513 : npMax (.arr (List.replicate 513 [1])) = some 1 := npMax_replicate 512 1
  have hs512 : npSum (.arr (List.replicate 512 [1])) = some 512 := by
    show some (gridSum (List.replicate 512 [1])) = some 512
    rw [gridSum_replicate]
    norm_num
  have hs1 : npSum (.arr (List.replicate 1 [1])) = some 1 := by
    show some (gridSum (List.replicate 1 [1])) = some 1
    rw [gridSum_replicate]
    norm_num
  refine ⟨?_, ?_, ?_, ?_, ?_, ?_, ?_⟩
  · rw [LayerOperation.sum, sumWith, hw]
    show sumLoop tallOnes (bandList 513 YSTEP) 0 = some 513
    rw [hb, sumLoop_cons _ _ _ _ _ _ he1 hs512, sumLoop_cons _ _ _ _ _ _ he2 hs1]
    show some (0 + 512 + 1) = some 513
    norm_num
  · rw [LayerOperation.min, minWith, hw]
    show minLoop tallOnes (bandList 513 YSTEP) 0 = some 2
    rw [hb, minLoop_cons _ _ _ _ _ _ he1 hmin512, minLoop_cons _ _ _ _ _ _ he2 hmin1]
    show some (0 + 1 + 1) = some 2
    norm_num
  · rw [LayerOperation.max, maxWith, hw]
    show maxLoop tallOnes (bandList 513 YSTEP) 0 = some 2
    rw [hb, maxLoop_cons _ _ _ _ _ _ he1 hmax512, maxLoop_cons _ _ _ _ _ _ he2 hmax1]
    show some (0 + 1 + 1) = some 2
    norm_num
  · rw [he3, Option.some_bind]
    exact hmin513
  · rw [he3, Option.some_bind]
    exact hmax513
  · rw [minWith, hw]
    show minLoop tallOnes (bandList 513 513) 0 = some 1
    rw [hb2, minLoop_cons _ _ _ _ _ _ he3 hmin513]
    show some (0 + 1) = some 1
    norm_num
  · rw [maxWith, hw]
    show maxLoop tallOnes (bandList 513 513) 0 = some 1
    rw [hb2, maxLoop_cons _ _ _ _ _ _ he3 hmax513]
    show some (0 + 1) = some 1
    norm_num


/-- C3 (amended): in `_eval` of a named-operator binary node, when
dispatch on the evaluated lhs reports `NotImplemented` the evaluation
retries on the rhs for the commutative operators `__add__`/`__mul__`; for
any other operator the `NotImplemented` sentinel is returned as the
node's value — evaluation still succeeds (no error is raised). -/
theorem C3_notimplemented_dispatch (l r : Expr) (op : OpName)
    (lv rv : CellValue) (idx step : Nat)
    (hl : l.eval idx step = some lv) (hr : r.eval idx step = some rv)
    (hni : dispatch op lv rv = .notImpl) :
    (Expr.node l (some (.named op)) (some r)).eval idx step =
      some (if op = .add ∨ op = .mul then dispatch op rv lv
            else .notImpl) := by
  simp only [Expr.eval, Option.some_bind, hl, hr, evalNamed, hni]

/-- Witness for C3 at a concrete input: `LayerConstant(1) - layer`. -/
theorem C3_notimplemented_dispatch_witness :
    (Expr.node (.const 1) (some (.named .sub))
        (some (.layer [[2]] ⟨0, 0, 1, 1⟩))).eval 0 1 =
      some (if OpName.sub = .add ∨ OpName.sub = .mul
            then dispatch .sub (.arr [[2]]) (.scalar 1)
            else .notImpl) :=
  C3_notimplemented_dispatch _ _ _ _ _ _ _ rfl rfl rfl

/-- C3 counterexample: the claim as stated says a non-commutative
"not implemented" dispatch raises an error; on `LayerConstant(1) - layer`
the code raises nothing and returns the `NotImplemented` sentinel as the
chunk value. -/
theorem C3_counterexample :
    (Expr.node (.const 1) (some (.named .sub))
        (some (.layer [[2]] ⟨0, 0, 1, 1⟩))).eval 0 1 = some .notImpl := by
  rfl

/-- C4: `save` fails before any chunk is written when the destination has
no raster band, and when the destination window size differs from the
computation window size; in both cases the write log is empty (the
destination is unmodified). -/
theorem C4_save_preconditions (e : Expr) (d : RasterDest) (and_sum : Bool) :
    (d.hasRasterBand = false →
      LayerOperation.save e (some d) and_sum =
        ([], .error .notRasterBacked)) ∧
    (∀ cw, d.hasRasterBand = true → e.window = some cw →
      (cw.xsize ≠ d.window.xsize ∨ cw.ysize ≠ d.window.ysize) →
      LayerOperation.save e (some d) and_sum =
        ([], .error .sizeMismatch)) := by
  constructor
  · intro h
    simp only [LayerOperation.save, h, if_true]
  · intro cw hband hw hne
    simp only [LayerOperation.save, hband, Bool.true_eq_false, if_false, hw,
      if_pos hne]

/-- Witness for C4: a read-only destination (no raster band) is rejected
with nothing written. -/
theorem C4_save_preconditions_witness :
    LayerOperation.save (.const 0) (some ⟨false, ⟨0, 0, 1, 1⟩⟩) true =
      ([], .error .notRasterBacked) :=
  (C4_save_preconditions _ _ _).1 rfl

/-- C9: when the computation window has zero rows the band loop of
`sum`/`min`/`max` runs no iterations and each returns the initial
accumulator 0.0 — no exception, no infinity sentinel. -/
theorem C9_empty_window_reductions (e : Expr) (w : Window)
    (hw : e.window = some w) (h0 : w.ysize = 0) :
    LayerOperation.sum e = some 0 ∧
    LayerOperation.min e = some 0 ∧
    LayerOperation.max e = some 0 := by
  have hb : bandList w.ysize YSTEP = [] := by rw [h0]; rfl
  refine ⟨?_, ?_, ?_⟩ <;>
    simp only [LayerOperation.sum, LayerOperation.min, LayerOperation.max,
      sumWith, minWith, maxWith, hw, hb, sumLoop, minLoop, maxLoop]

/-- Witness for C9: a zero-row layer. -/
theorem C9_empty_window_reductions_witness :
    LayerOperation.sum (.layer [] ⟨0, 0, 5, 0⟩) = some 0 ∧
    LayerOperation.min (.layer [] ⟨0, 0, 5, 0⟩) = some 0 ∧
    LayerOperation.max (.layer [] ⟨0, 0, 5, 0⟩) = some 0 :=
  C9_empty_window_reductions _ ⟨0, 0, 5, 0⟩ rfl rfl


/-- Helper for C2: over bands whose chunks all evaluate to arrays, the
`save` band loop (with and without `and_sum`) and the `sum` band loop
produce the same writes and the same accumulated total. -/
theorem saveLoop_sumLoop_agree (e : Expr) (dw : Window) :
    ∀ l : List (Nat × Nat),
      (∀ b ∈ l, ∃ m, e.eval b.1 b.2 = some (.arr m)) →
      ∃ dws ds,
        ∀ (ws : List WriteRec) (t s : Rat),
          saveLoop e dw true l ws t = (ws ++ dws, .ok (some (t + ds))) ∧
          saveLoop e dw false l ws t = (ws ++ dws, .ok none) ∧
          sumLoop e l s = some (s + ds) := by
  intro l
  induction l with
  | nil =>
      intro _
      refine ⟨[], 0, fun ws t s => ?_⟩
      simp [saveLoop, sumLoop]
  | cons b rest ih =>
      intro h
      obtain ⟨m, hm⟩ := h b (List.mem_cons_self b rest)
      obtain ⟨dws, ds, H⟩ := ih (fun c hc => h c (List.mem_cons_of_mem b hc))
      refine ⟨⟨m, dw.xoff, (b.1 : Int) + dw.yoff⟩ :: dws, gridSum m + ds,
        fun ws t s => ?_⟩
      have hsave : ∀ (flag : Bool) (total : Rat),
          saveLoop e dw flag (b :: rest) ws total =
            saveLoop e dw flag rest
              (ws ++ [⟨m, dw.xoff, (b.1 : Int) + dw.yoff⟩])
              (if flag then total + gridSum m else total) := by
        intro flag total
        simp [saveLoop, hm, expandChunk]
      refine ⟨?_, ?_, ?_⟩
      · rw [hsave true t, (H _ _ s).1]
        simp [List.append_assoc, add_assoc]
      · rw [hsave false t, (H _ _ s).2.1]
        simp [List.append_assoc]
      · have hstep : sumLoop e (b :: rest) s = sumLoop e rest (s + gridSum m) :=
          sumLoop_cons e b rest s _ _ hm rfl
        rw [hstep, (H ws t (s + gridSum m)).2.2, add_assoc]

/-- C2 (amended): on a raster-backed destination whose window matches the
computation window, and when every band chunk evaluates to an array,
`save` with `and_sum=True` returns in one pass exactly the value of an
independent `sum()` over the same expression, writing the same chunks;
with `and_sum=False` it returns `None`.  (When a band chunk evaluates to
a bare scalar the two differ, see the counterexample.) -/
theorem C2_save_and_sum (e : Expr) (d : RasterDest) (cw : Window)
    (hband : d.hasRasterBand = true)
    (hw : e.window = some cw)
    (hx : cw.xsize = d.window.xsize) (hy : cw.ysize = d.window.ysize)
    (harr : ∀ b ∈ bandList cw.ysize YSTEP,
      ∃ m, e.eval b.1 b.2 = some (.arr m)) :
    ∃ ws total,
      LayerOperation.save e (some d) true = (ws, .ok (some total)) ∧
      LayerOperation.sum e = some total ∧
      LayerOperation.save e (some d) false = (ws, .ok none) := by
  obtain ⟨dws, ds, H⟩ :=
    saveLoop_sumLoop_agree e d.window (bandList cw.ysize YSTEP) harr
  have hcond : ¬(cw.xsize ≠ d.window.xsize ∨ cw.ysize ≠ d.window.ysize) := by
    simp [hx, hy]
  have hsave : ∀ flag, LayerOperation.save e (some d) flag =
      saveLoop e d.window flag (bandList cw.ysize YSTEP) [] 0 := by
    intro flag
    rw [LayerOperation.save]
    rw [hband]
    simp only [Bool.true_eq_false, if_false, hw, if_neg hcond]
  refine ⟨dws, ds, ?_, ?_, ?_⟩
  · rw [hsave true, (H [] 0 0).1]
    simp
  · rw [LayerOperation.sum, sumWith, hw]
    show sumLoop e (bandList cw.ysize YSTEP) 0 = some ds
    rw [(H [] 0 0).2.2]
    simp
  · rw [hsave false, (H [] 0 0).2.1]
    simp

/-- Witness for C2 on a one-band 1x2 layer. -/
theorem C2_save_and_sum_witness :
    ∃ ws total,
      LayerOperation.save (.layer [[1, 2]] ⟨0, 0, 2, 1⟩)
          (some ⟨true, ⟨0, 0, 2, 1⟩⟩) true = (ws, .ok (some total)) ∧
      LayerOperation.sum (.layer [[1, 2]] ⟨0, 0, 2, 1⟩) = some total ∧
      LayerOperation.save (.layer [[1, 2]] ⟨0, 0, 2, 1⟩)
          (some ⟨true, ⟨0, 0, 2, 1⟩⟩) false = (ws, .ok none) :=
  C2_save_and_sum _ _ ⟨0, 0, 2, 1⟩ rfl rfl rfl rfl (by
    intro b hb
    have hb2 : b = (0, 1) := by
      have : bandList 1 YSTEP = [(0, 1)] := by decide
      rw [this] at hb
      simpa using hb
    rw [hb2]
    exact ⟨[[1, 2]], rfl⟩)

/-- C2 counterexample: `scalarExpr` evaluates each chunk to the bare
scalar 5 over a 1x2 window.  `save(..., and_sum=True)` expands the
scalar to the full band shape before summing and returns 10, while an
independent `sum()` adds the bare scalar once per band and returns 5. -/
theorem C2_counterexample :
    LayerOperation.save scalarExpr (some destC2) true =
      ([⟨[[5, 5]], 0, 0⟩], .ok (some 10)) ∧
    LayerOperation.sum scalarExpr = some 5 ∧
    some (10 : Rat) ≠ some (5 : Rat) := by
  refine ⟨by rfl, by rfl, by decide⟩

/-- C5: a composed node's window is the lhs's window when the lhs has
one, otherwise the rhs's; when the node has no window, the reductions
fail (`none` models the propagated `AttributeError`) and `save` on a
raster-backed destination fails before writing anything. -/
theorem C5_window_precedence (l : Expr) (oper : Option Oper) (r? : Option Expr) :
    (∀ w, l.window = some w → (Expr.node l oper r?).window = some w) ∧
    (∀ r w, l.window = none → r? = some r → r.window = some w →
      (Expr.node l oper r?).window = some w) ∧
    ((Expr.node l oper r?).window = none →
      LayerOperation.sum (.node l oper r?) = none ∧
      LayerOperation.min (.node l oper r?) = none ∧
      LayerOperation.max (.node l oper r?) = none ∧
      ∀ (d : RasterDest) (a : Bool), d.hasRasterBand = true →
        LayerOperation.save (.node l oper r?) (some d) a =
          ([], .error .missingWindow)) := by
  refine ⟨?_, ?_, ?_⟩
  · intro w hw
    cases r? with
    | none => simpa [Expr.window] using hw
    | some r => simp [Expr.window, hw]
  · intro r w hl hr hrw
    subst hr
    simp [Expr.window, hl, hrw]
  · intro hnone
    refine ⟨?_, ?_, ?_, ?_⟩
    · rw [LayerOperation.sum, sumWith, hnone]
    · rw [LayerOperation.min, minWith, hnone]
    · rw [LayerOperation.max, maxWith, hnone]
    · intro d a hband
      rw [LayerOperation.save, hband]
      simp only [Bool.true_eq_false, if_false, hnone]

/-- Witness for C5: a node over a layer inherits the layer's window. -/
theorem C5_window_precedence_witness :
    (Expr.node (.layer [[1]] ⟨0, 0, 1, 1⟩) none none).window =
      some ⟨0, 0, 1, 1⟩ :=
  (C5_window_precedence (.layer [[1]] ⟨0, 0, 1, 1⟩) none none).1
    ⟨0, 0, 1, 1⟩ rfl

/-- C6: every named-operator composition returns a new node storing the
lhs unchanged and recording the operator; a bare number rhs becomes a
`LayerConstant`, a 0-dimensional numpy array becomes a `LayerConstant`
of its item, a numpy array of any other shape raises `ValueError` at
construction time, and a Layer-like rhs is stored unchanged.  No chunk
is evaluated during construction. -/
theorem C6_lazy_construction (opn : OpName) (lhs : Expr) (v : Rat)
    (flat : List Rat) (shape : List Nat) (r : Expr) :
    applyBinary opn lhs (.pynum v) =
      .ok (.node lhs (some (.named opn)) (some (.const v))) ∧
    applyBinary opn lhs (.nparray [] flat) =
      .ok (.node lhs (some (.named opn)) (some (.const (flat.headD 0)))) ∧
    (shape ≠ [] →
      applyBinary opn lhs (.nparray shape flat) = .error .numpyNotAllowed) ∧
    applyBinary opn lhs (.layerLike r) =
      .ok (.node lhs (some (.named opn)) (some r)) := by
  refine ⟨rfl, rfl, ?_, rfl⟩
  intro h
  simp [applyBinary, LayerOperation.mk, normalizeRhs, h, Except.map]

/-- Witness for C6: a 2x2 numpy array rhs is rejected. -/
theorem C6_lazy_construction_witness :
    applyBinary .add (.const 0) (.nparray [2, 2] [1, 2, 3, 4]) =
      .error .numpyNotAllowed :=
  (C6_lazy_construction .add (.const 0) 0 [1, 2, 3, 4] [2, 2]
    (.const 0)).2.2.1 (by decide)

/-- Helper for C10: every binary-operator composition yields either a
deferred node recording that operator, or the construction-time
`ValueError` — never an evaluated value. -/
theorem applyBinary_deferred (opn : OpName) (a : Expr) (b : RhsValue) :
    (∃ rE, applyBinary opn a b = .ok (.node a (some (.named opn)) (some rE)))
      ∨ applyBinary opn a b = .error .numpyNotAllowed := by
  cases b with
  | pynum v => exact Or.inl ⟨.const v, rfl⟩
  | nparray shape flat =>
      cases shape with
      | nil => exact Or.inl ⟨.const (flat.headD 0), rfl⟩
      | cons s ss =>
          right
          simp [applyBinary, LayerOperation.mk, normalizeRhs, Except.map]
  | layerLike r => exact Or.inl ⟨r, rfl⟩

/-- C10: each comparison operator on a Layer-like object never produces
a truth value: it returns a new deferred operation node recording that
comparison (or the construction-time `ValueError` for an invalid rhs). -/
theorem C10_comparisons_deferred (a : Expr) (b : RhsValue) :
    ((∃ rE, LayerMathMixin.eq a b =
        .ok (.node a (some (.named .eq)) (some rE))) ∨
      LayerMathMixin.eq a b = .error .numpyNotAllowed) ∧
    ((∃ rE, LayerMathMixin.ne a b =
        .ok (.node a (some (.named .ne)) (some rE))) ∨
      LayerMathMixin.ne a b = .error .numpyNotAllowed) ∧
    ((∃ rE, LayerMathMixin.lt a b =
        .ok (.node a (some (.named .lt)) (some rE))) ∨
      LayerMathMixin.lt a b = .error .numpyNotAllowed) ∧
    ((∃ rE, LayerMathMixin.le a b =
        .ok (.node a (some (.named .le)) (some rE))) ∨
      LayerMathMixin.le a b = .error .numpyNotAllowed) ∧
    ((∃ rE, LayerMathMixin.gt a b =
        .ok (.node a (some (.named .gt)) (some rE))) ∨
      LayerMathMixin.gt a b = .error .numpyNotAllowed) ∧
    ((∃ rE, LayerMathMixin.ge a b =
        .ok (.node a (some (.named .ge)) (some rE))) ∨
      LayerMathMixin.ge a b = .error .numpyNotAllowed) :=
  ⟨applyBinary_deferred .eq a b, applyBinary_deferred .ne a b,
   applyBinary_deferred .lt a b, applyBinary_deferred .le a b,
   applyBinary_deferred .gt a b, applyBinary_deferred .ge a b⟩

/-- C8: constructing a group compositor from zero children fails with
`EmptyInput`, and from children whose normalised pixel scales differ
fails with `IncompatibleLayers`; no compositor object is produced in
either case (the result is an error, not a `GroupLayer`). -/
theorem C8_group_construction (cs : List ChildLayer) :
    GroupLayer.create [] = .error .emptyInput ∧
    ((∃ a, a ∈ cs ∧ ∃ b, b ∈ cs ∧
        normalizeScale a.scale ≠ normalizeScale b.scale) →
      GroupLayer.create cs = .error .incompatibleLayers) := by
  refine ⟨rfl, ?_⟩
  rintro ⟨a, ha, b, hb, hne⟩
  cases cs with
  | nil => cases ha
  | cons c rest =>
      have hnotall : ¬(rest.all
          (fun d => decide
            (normalizeScale d.scale = normalizeScale c.scale)) = true) := by
        intro hall
        rw [List.all_eq_true] at hall
        have key : ∀ x ∈ c :: rest,
            normalizeScale x.scale = normalizeScale c.scale := by
          intro x hx
          rcases List.mem_cons.mp hx with h | h
          · rw [h]
          · exact of_decide_eq_true (hall x h)
        exact hne (by rw [key a ha, key b hb])
      simp [GroupLayer.create, hnotall]

/-- Witness for C8: two children with pixel scales (1,1) and (2,2). -/
theorem C8_group_construction_witness :
    GroupLayer.create [⟨⟨1, 1⟩⟩, ⟨⟨2, 2⟩⟩] = .error .incompatibleLayers :=
  (C8_group_construction _).2
    ⟨⟨⟨1, 1⟩⟩, by decide, ⟨⟨2, 2⟩⟩, by decide, by decide⟩



theorem fillRow_length (xsize : Nat) (g : Nat → Rat) :
    ∀ (row : List Rat) (x0 : Nat), (fillRow row x0 xsize g).length = row.length := by
  intro row
  induction row with
  | nil => intro x0; rfl
  | cons v rest ih => intro x0; simp [fillRow, ih]

theorem fillRow_getD (xsize : Nat) (g : Nat → Rat) :
    ∀ (row : List Rat) (x0 j : Nat), j < row.length → x0 + j < xsize →
      (fillRow row x0 xsize g).getD j 0 = g (x0 + j) := by
  intro row
  induction row with
  | nil => intro x0 j hj _; exact absurd hj (Nat.not_lt_zero j)
  | cons v rest ih =>
      intro x0 j hj hx
      cases j with
      | zero =>
          have h0 : x0 < xsize := by simpa using hx
          simp [fillRow, h0]
      | succ n =>
          have h1 : n < rest.length := by simpa using hj
          have h2 : (x0 + 1) + n < xsize := by omega
          have h3 := ih (x0 + 1) n h1 h2
          have h4 : x0 + (n + 1) = (x0 + 1) + n := by omega
          simp only [fillRow, List.getD_cons_succ, h3, h4]

theorem fillGridAux_length (step xsize : Nat) (g : Nat → Nat → Rat) :
    ∀ (t : List (List Rat)) (y0 : Nat),
      (fillGridAux t y0 step xsize g).length = t.length := by
  intro t
  induction t with
  | nil => intro y0; rfl
  | cons row rest ih => intro y0; simp [fillGridAux, ih]

theorem fillGridAux_getD (step xsize : Nat) (g : Nat → Nat → Rat) :
    ∀ (t : List (List Rat)) (y0 y : Nat), y < t.length → y0 + y < step →
      (fillGridAux t y0 step xsize g).getD y [] =
        fillRow (t.getD y []) 0 xsize (g (y0 + y)) := by
  intro t
  induction t with
  | nil => intro y0 y hy _; exact absurd hy (Nat.not_lt_zero y)
  | cons row rest ih =>
      intro y0 y hy hs
      cases y with
      | zero =>
          have h0 : y0 < step := by simpa using hs
          simp [fillGridAux, h0]
      | succ n =>
          have h1 : n < rest.length := by simpa using hy
          have h2 : (y0 + 1) + n < step := by omega
          have h3 := ih (y0 + 1) n h1 h2
          have h4 : y0 + (n + 1) = (y0 + 1) + n := by omega
          simp only [fillGridAux, List.getD_cons_succ, h3, h4]

theorem fillGridAux_row_length (step xsize : Nat) (g : Nat → Nat → Rat) :
    ∀ (t : List (List Rat)) (y0 y : Nat),
      ((fillGridAux t y0 step xsize g).getD y []).length =
        (t.getD y []).length := by
  intro t
  induction t with
  | nil => intro y0 y; rfl
  | cons row rest ih =>
      intro y0 y
      cases y with
      | zero =>
          by_cases h0 : y0 < step
          · simp [fillGridAux, h0, fillRow_length]
          · simp [fillGridAux, h0]
      | succ n =>
          simp only [fillGridAux, List.getD_cons_succ]
          exact ih (y0 + 1) n

theorem fillGrid_length (t : List (List Rat)) (step xsize : Nat)
    (g : Nat → Nat → Rat) : (fillGrid t step xsize g).length = t.length :=
  fillGridAux_length step xsize g t 0

theorem fillGrid_row_length (t : List (List Rat)) (step xsize : Nat)
    (g : Nat → Nat → Rat) (y : Nat) :
    ((fillGrid t step xsize g).getD y []).length = (t.getD y []).length :=
  fillGridAux_row_length step xsize g t 0 y

theorem fillGrid_getD_getD (t : List (List Rat)) (step xsize y x : Nat)
    (g : Nat → Nat → Rat) (hy : y < t.length) (hys : y < step)
    (hx : x < (t.getD y []).length) (hxs : x < xsize) :
    ((fillGrid t step xsize g).getD y []).getD x 0 = g y x := by
  rw [fillGrid, fillGridAux_getD step xsize g t 0 y hy (by simpa using hys)]
  have := fillRow_getD xsize (g (0 + y)) (t.getD y []) 0 x hx (by simpa using hxs)
  simpa using this

/-- C7: shader-style chunk evaluation short-circuits to a single scalar
operator call when every evaluated operand is a pure scalar; otherwise
it produces one output chunk shaped like the array-valued operand
(lhs preferred) whose every in-loop position `(y, x)` holds the operator
applied at that position, a non-indexable operand being broadcast as the
same scalar at every position. -/
theorem C7_shader_evaluation (lE rE : Expr) (f : Rat → Option Rat → Rat)
    (idx step : Nat) :
    (∀ a, lE.eval idx step = some (.scalar a) →
      (Expr.shader lE f none).eval idx step = some (.scalar (f a none))) ∧
    (∀ a b, lE.eval idx step = some (.scalar a) →
      rE.eval idx step = some (.scalar b) →
      (Expr.shader lE f (some rE)).eval idx step =
        some (.scalar (f a (some b)))) ∧
    (∀ m rv w, lE.eval idx step = some (.arr m) →
      rE.eval idx step = some rv →
      (Expr.shader lE f (some rE)).window = some w →
      ∃ res, (Expr.shader lE f (some rE)).eval idx step = some (.arr res) ∧
        res.length = m.length ∧
        (∀ y, (res.getD y []).length = (m.getD y []).length) ∧
        (∀ y x, y < step → x < w.xsize → y < m.length →
          x < (m.getD y []).length →
          (res.getD y []).getD x 0 =
            f ((m.getD y []).getD x 0) (some (cellAt rv y x)))) ∧
    (∀ a n w, lE.eval idx step = some (.scalar a) →
      rE.eval idx step = some (.arr n) →
      (Expr.shader lE f (some rE)).window = some w →
      ∃ res, (Expr.shader lE f (some rE)).eval idx step = some (.arr res) ∧
        res.length = n.length ∧
        (∀ y, (res.getD y []).length = (n.getD y []).length) ∧
        (∀ y x, y < step → x < w.xsize → y < n.length →
          x < (n.getD y []).length →
          (res.getD y []).getD x 0 =
            f a (some ((n.getD y []).getD x 0)))) := by
  refine ⟨?_, ?_, ?_, ?_⟩
  · intro a hl
    simp [Expr.eval, hl, Option.some_bind, shaderCombine]
  · intro a b hl hr
    simp [Expr.eval, hl, hr, Option.some_bind, shaderCombine]
  · intro m rv w hl hr hw
    refine ⟨fillGrid m step w.xsize (fun y x =>
      match some rv with
      | none => f (cellAt (.arr m) y x) none
      | some rv => f (cellAt (.arr m) y x) (some (cellAt rv y x))), ?_, ?_, ?_, ?_⟩
    · simp only [Expr.eval, hl, hr, Option.some_bind, shaderCombine, hw]
    · exact fillGrid_length _ _ _ _
    · intro y
      exact fillGrid_row_length _ _ _ _ y
    · intro y x hys hxs hy hx
      rw [fillGrid_getD_getD m step w.xsize y x _ hy hys hx hxs]
      simp [cellAt]
  · intro a n w hl hr hw
    refine ⟨fillGrid n step w.xsize (fun y x =>
      f a (some (cellAt (.arr n) y x))), ?_, ?_, ?_, ?_⟩
    · simp only [Expr.eval, hl, hr, Option.some_bind, shaderCombine, hw]
    · exact fillGrid_length _ _ _ _
    · intro y
      exact fillGrid_row_length _ _ _ _ y
    · intro y x hys hxs hy hx
      rw [fillGrid_getD_getD n step w.xsize y x _ hy hys hx hxs]
      simp [cellAt]

/-- Witness for C7: two constants short-circuit to one scalar call. -/
theorem C7_shader_evaluation_witness :
    (Expr.shader (.const 2) (fun a b => a * b.getD 1)
        (some (.const 3))).eval 0 1 =
      some (.scalar ((fun (a : Rat) (b : Option Rat) => a * b.getD 1) 2 (some 3))) :=
  (C7_shader_evaluation (.const 2) (.const 3) _ 0 1).2.1 2 3 rfl rfl
end

end Yirgacheffe
